import Mathlib

/-!
Verification of `libsonyapi` (`src/libsonyapi/camera.py`), a Sony camera
remote-control client.  The network-facing parts (UDP discovery, HTTP
requests) are embedded shallowly: each pure computation of the source is a
Lean function, and the data a socket or HTTP call would deliver is passed
in as an explicit argument.
-/

/-- A JSON value as produced by Python's `json.loads`.  Numbers are modelled
as integers (every number occurring in the camera protocol and in the claims
is an integer JSON number).  Objects are association lists whose keys are
unique, as they are in a parsed Python dict. -/
inductive JVal where
  | null : JVal
  | bool : Bool → JVal
  | num : Int → JVal
  | str : String → JVal
  | arr : List JVal → JVal
  | obj : List (String × JVal) → JVal
deriving Repr

/-- Lookup in a parsed JSON object (Python dict access / `in` test on keys). -/
def dictGet (d : List (String × JVal)) (k : String) : Option JVal :=
  d.lookup k

/-- Python's `repr` of a JSON-decoded value (`None`, `True`, decimal integers,
quoted strings, `[...]` lists, `\x7b...\x7d` dicts).  String escaping inside
`repr` is not modelled: the strings reaching it in this development contain no
quote or backslash characters. -/
def pyRepr : JVal → String
  | .null => "None"
  | .bool true => "True"
  | .bool false => "False"
  | .num n => toString n
  | .str s => "\x27" ++ s ++ "\x27"
  | .arr xs => "[" ++ pyReprItems xs ++ "]"
  | .obj kvs => "\x7b" ++ pyReprPairs kvs ++ "\x7d"
where
  pyReprItems : List JVal → String
    | [] => ""
    | [v] => pyRepr v
    | v :: w :: rest => pyRepr v ++ ", " ++ pyReprItems (w :: rest)
  pyReprPairs : List (String × JVal) → String
    | [] => ""
    | [(k, v)] => "\x27" ++ k ++ "\x27: " ++ pyRepr v
    | (k, v) :: p :: rest =>
        "\x27" ++ k ++ "\x27: " ++ pyRepr v ++ ", " ++ pyReprPairs (p :: rest)

/-- Python's `str` of a JSON-decoded value, as used by `"...".format(param)`
and by f-string interpolation: identical to `repr` except on strings. -/
def pyStr : JVal → String
  | .str s => s
  | v => pyRepr v

/-- The characters stripped by Python's `str.strip()` with no argument. -/
def isPySpace (c : Char) : Bool :=
  c = ' ' || c = '\t' || c = '\n' || c = '\x0b' || c = '\x0c' || c = '\r'

/-- Python `item.strip()`: remove leading and trailing whitespace. -/
def pyStrip (s : String) : String :=
  String.mk (((s.data.dropWhile isPySpace).reverse.dropWhile isPySpace).reverse)

/-- Python `sub in s` on strings: substring containment. -/
def strContainsB (s sub : String) : Bool :=
  decide (sub.data <:+: s.data)

/-- Python `s.split(sep)` for a one-character separator (the source only
splits on `"\n"` and `" "`): empty pieces are kept, and the empty string
splits to `[""]`. -/
def pySplitChar (sep : Char) (s : String) : List String :=
  go s.data []
where
  go : List Char → List Char → List String
    | [], acc => [String.mk acc.reverse]
    | c :: cs, acc =>
      if c = sep then String.mk acc.reverse :: go cs []
      else go cs (c :: acc)

/-- Python `s.split()` with no argument: the maximal runs of
non-whitespace characters, in order. -/
def pyWords (s : String) : List String :=
  go s.data []
where
  go : List Char → List Char → List String
    | [], [] => []
    | [], acc => [String.mk acc.reverse]
    | c :: cs, acc =>
      if isPySpace c then
        if acc.isEmpty then go cs [] else String.mk acc.reverse :: go cs []
      else go cs (c :: acc)

/-- Outcome of `Camera.discover`: a returned URL, an uncaught `IndexError`
(from `item.strip().split(" ")[1]` when the matching line has no second
field), or the `ConnectionError` raised on socket timeout. -/
inductive DiscoverResult where
  | url : String → DiscoverResult
  | indexError : DiscoverResult
  | connectionError : String → DiscoverResult
deriving Repr, DecidableEq

/-- `Camera.discover`, with the network abstracted: `datagrams` is the
sequence of decoded SSDP datagrams `socket_.recvfrom` delivers before it
times out.  For each datagram the source scans `decoded_data.split("\n")`
for the first line with `"LOCATION" in item` and returns
`item.strip().split(" ")[1]`; if no datagram yields a match before the
2-second timeout, `socket.timeout` is caught and a `ConnectionError` is
raised. -/
def discover (datagrams : List String) : DiscoverResult :=
  match datagrams with
  | [] => .connectionError "You are not connected to the camera\x27s wifi."
  | decoded_data :: rest =>
    match (pySplitChar '\n' decoded_data).find? (fun item => strContainsB item "LOCATION") with
    | some item =>
      match (pySplitChar ' ' (pyStrip item)).get? 1 with
      | some tok => .url tok
      | none => .indexError
    | none => discover rest

/-- The discovery parse written from the spec's words (§4.1, §8), for
comparison with `discover`: the first header line *starting with*
`"LOCATION"`, returning the second *whitespace-delimited* token of that
line (`none` when there is no such line or no second token). -/
def specDiscoverParse (decoded_data : String) : Option String :=
  match (pySplitChar '\n' decoded_data).find? (fun item => "LOCATION".data.isPrefixOf item.data) with
  | some item => (pyWords item).get? 1
  | none => none

/-- The exceptions `Camera.do` can raise.  The six library exception classes
each carry the object they were constructed with; `valueError` is the generic
`ValueError` fallback; `indexError` models `error[0]` / `error[-1]` on an
empty list; `typeError` models the `TypeError` Python raises when the code
concatenates, indexes or measures a value of the wrong type. -/
inductive DoError where
  | notAvailable : JVal → DoError
  | illegalArgument : String → DoError
  | invalidAction : String → DoError
  | forbidden : JVal → DoError
  | operationFailed : JVal → DoError
  | longShooting : JVal → DoError
  | valueError : String → DoError
  | indexError : DoError
  | typeError : DoError
deriving Repr

/-- Python `v == n` between a JSON-decoded value and an integer literal:
equal integers compare equal, and Python's bool/int coercion makes
`True == 1` and `False == 0`; every other runtime type compares unequal. -/
def pyEqNum (v : JVal) (n : Int) : Bool :=
  match v with
  | .num m => m == n
  | .bool true => n == 1
  | .bool false => n == 0
  | _ => false

/-- `Camera.do`, with the HTTP round trip abstracted: `response` is the
JSON object `json.loads` produced from the POST response body, and `param`
is the `param` argument of `do` (still un-normalized: `_post_request`
wraps a scalar only in its own local variable).  Errors are mapped by
`error[0]`; the message is `error[-1]`.  A non-list bound to `"error"` or
`"result"` is modelled as a `TypeError` (string indexing is not modelled). -/
def Camera.do (method : String) (param : JVal) (response : List (String × JVal)) :
    Except DoError JVal :=
  match dictGet response "error" with
  | some (JVal.arr error) =>
    match error.head?, error.getLast? with
    | some error_code, some error_message =>
      if pyEqNum error_code 1 then
        .error (.notAvailable error_message)
      else if pyEqNum error_code 3 then
        match error_message with
        | .str s => .error (.illegalArgument (s ++ ": " ++ pyStr param))
        | _ => .error .typeError
      else if pyEqNum error_code 12 then
        match error_message with
        | .str s => .error (.invalidAction ("Invalid action: " ++ s))
        | _ => .error .typeError
      else if pyEqNum error_code 403 then
        .error (.forbidden error_message)
      else if pyEqNum error_code 500 then
        .error (.operationFailed error_message)
      else if pyEqNum error_code 40403 then
        .error (.longShooting error_message)
      else
        .error (.valueError ("Error " ++ pyStr error_code ++ ": " ++ pyStr error_message))
    | _, _ => .error .indexError
  | some _ => .error .typeError
  | none =>
    match dictGet response "result" with
    | some (JVal.arr result) =>
      if result.length = 0 then
        .ok (.bool true)
      else if result.length = 1 then
        match result.get? 0 with
        | some x => .ok x
        | none => .error .indexError
      else
        .ok (.arr result)
    | some _ => .error .typeError
    | none => .ok (.bool true)

/-- One hexadecimal digit (lowercase), for `\uXXXX` escapes. -/
def hexDigit (n : Nat) : Char :=
  if n < 10 then Char.ofNat (48 + n) else Char.ofNat (87 + n)

/-- Four-digit lowercase hexadecimal, for `\uXXXX` escapes. -/
def hex4 (n : Nat) : String :=
  String.mk [hexDigit (n / 4096 % 16), hexDigit (n / 256 % 16),
             hexDigit (n / 16 % 16), hexDigit (n % 16)]

/-- `json.dumps` escaping of one character inside a string literal
(quote, backslash, the short control escapes, `\uXXXX` for the remaining
control characters; `ensure_ascii` for non-ASCII is not modelled). -/
def jsonEscapeChar (c : Char) : String :=
  if c = '"' then "\\\""
  else if c = '\\' then "\\\\"
  else if c = '\n' then "\\n"
  else if c = '\t' then "\\t"
  else if c = '\r' then "\\r"
  else if c = '\x08' then "\\b"
  else if c = '\x0c' then "\\f"
  else if c.toNat < 32 then "\\u" ++ hex4 c.toNat
  else String.singleton c

/-- `json.dumps` escaping of a whole string. -/
def jsonEscape (s : String) : String :=
  String.join (s.data.map jsonEscapeChar)

/-- Python's `json.dumps` with default options (item separator `", "`,
key separator `": "`). -/
def jsonDumps : JVal → String
  | .null => "null"
  | .bool true => "true"
  | .bool false => "false"
  | .num n => toString n
  | .str s => "\"" ++ jsonEscape s ++ "\""
  | .arr xs => "[" ++ jsonDumpsItems xs ++ "]"
  | .obj kvs => "\x7b" ++ jsonDumpsPairs kvs ++ "\x7d"
where
  jsonDumpsItems : List JVal → String
    | [] => ""
    | [v] => jsonDumps v
    | v :: w :: rest => jsonDumps v ++ ", " ++ jsonDumpsItems (w :: rest)
  jsonDumpsPairs : List (String × JVal) → String
    | [] => ""
    | [(k, v)] => "\"" ++ jsonEscape k ++ "\": " ++ jsonDumps v
    | (k, v) :: p :: rest =>
        "\"" ++ jsonEscape k ++ "\": " ++ jsonDumps v ++ ", " ++ jsonDumpsPairs (p :: rest)

/-- The param normalization in `Camera._post_request`:
`if type(param) is not list: param = [param]`. -/
def normalize_param (param : JVal) : List JVal :=
  match param with
  | .arr xs => xs
  | v => [v]

/-- The body `Camera._post_request` POSTs: `json.dumps` of the dict literal
`{"method": method, "params": param, "id": 1, "version": "1.0"}` built after
normalizing `param`. -/
def post_request_body (method : String) (param : JVal) : String :=
  jsonDumps (.obj [("method", .str method),
                   ("params", .arr (normalize_param param)),
                   ("id", .num 1),
                   ("version", .str "1.0")])

/-- The possible outcomes of `requests.get(self.camera_endpoint_url,
timeout=0.2)` inside the `connected` property: the request completes with
some HTTP response, it raises `requests.exceptions.ConnectionError`
(connection refused/unreachable, including `ConnectTimeout`), or it raises
some other exception (e.g. `ReadTimeout`, `InvalidURL`). -/
inductive GetOutcome where
  | success : GetOutcome
  | connectionError : GetOutcome
  | otherException : GetOutcome
deriving Repr, DecidableEq

/-- The `Camera.connected` property: `True` when the GET returns, `False`
when the `except requests.exceptions.ConnectionError` clause catches, and
any other exception propagates (modelled as `Except.error ()`). -/
def connected : GetOutcome → Except Unit Bool
  | .success => .ok true
  | .connectionError => .ok false
  | .otherException => .error ()

/-- Python `"needle" in container` for a string needle and a JSON-decoded
container, as used by `if "startRecMode" in self.available_apis`: list
membership, substring test, dict-key membership; `in` on `None`, a bool or
a number raises `TypeError`. -/
def pyInStr (needle : String) (container : JVal) : Except Unit Bool :=
  match container with
  | .arr xs => .ok (xs.any (fun v => match v with | .str s => s == needle | _ => false))
  | .str s => .ok (strContainsB s needle)
  | .obj kvs => .ok (kvs.any (fun kv => kv.1 == needle))
  | _ => .error ()

/-- The state a fully constructed `Camera` object holds, one field per
attribute `__init__` assigns. -/
structure Camera where
  xml_url : String
  name : String
  api_version : String
  services : List (String × String)
  camera_endpoint_url : String
  available_apis : JVal
deriving Repr

/-- The external world `Camera.__init__` interacts with: the SSDP datagrams
received by `discover`, the outcome of `connect` (the
`(name, api_version, api_service_urls)` triple parsed from the device
descriptor XML, or a fetch/parse failure), and the parsed JSON responses to
the two `do` calls the constructor can make. -/
structure InitEnv where
  datagrams : List String
  fetch : Except Unit (String × String × List (String × String))
  apiListResponse : List (String × JVal)
  startRecResponse : List (String × JVal)

/-- The ways `Camera.__init__` can fail, each aborting construction. -/
inductive InitError where
  | connectionError : String → InitError
  | indexError : InitError
  | fetchError : InitError
  | keyError : InitError
  | doError : DoError → InitError
  | typeError : InitError
deriving Repr

/-- `Camera.__init__`: discovery, descriptor fetch, endpoint derivation
(`self.services["camera"] + "/camera"`, `KeyError` when absent), the
`getAvailableApiList` call cached in `available_apis`, then
`do("startRecMode")` when `"startRecMode" in self.available_apis`.  Any
exception propagates out of `__init__`, so no object is produced. -/
def Camera.init (env : InitEnv) : Except InitError Camera :=
  match discover env.datagrams with
  | .connectionError m => .error (.connectionError m)
  | .indexError => .error .indexError
  | .url xml_url =>
    match env.fetch with
    | .error _ => .error .fetchError
    | .ok (name, api_version, services) =>
      match services.lookup "camera" with
      | none => .error .keyError
      | some u =>
        let camera_endpoint_url := u ++ "/camera"
        match Camera.do "getAvailableApiList" (.arr []) env.apiListResponse with
        | .error e => .error (.doError e)
        | .ok available_apis =>
          match pyInStr "startRecMode" available_apis with
          | .error _ => .error .typeError
          | .ok true =>
            match Camera.do "startRecMode" (.arr []) env.startRecResponse with
            | .error e => .error (.doError e)
            | .ok _ =>
              .ok ⟨xml_url, name, api_version, services, camera_endpoint_url, available_apis⟩
          | .ok false =>
            .ok ⟨xml_url, name, api_version, services, camera_endpoint_url, available_apis⟩

/-- Helper: the error branch of `Camera.do` for code 1. -/
theorem do_error_code1 (method : String) (param : JVal)
    (response : List (String × JVal)) (es : List JVal) (msg : JVal)
    (he : dictGet response "error" = some (JVal.arr es))
    (hhead : es.head? = some (JVal.num 1))
    (hlast : es.getLast? = some msg) :
    Camera.do method param response = .error (.notAvailable msg) := by
  simp [Camera.do, he, hhead, hlast, pyEqNum]

/-- Helper: the error branch of `Camera.do` for code 3 with a string
message. -/
theorem do_error_code3 (method : String) (param : JVal)
    (response : List (String × JVal)) (es : List JVal) (s : String)
    (he : dictGet response "error" = some (JVal.arr es))
    (hhead : es.head? = some (JVal.num 3))
    (hlast : es.getLast? = some (JVal.str s)) :
    Camera.do method param response = .error (.illegalArgument (s ++ ": " ++ pyStr param)) := by
  simp [Camera.do, he, hhead, hlast, pyEqNum]

/-- Helper: the error branch of `Camera.do` for code 12 with a string
message. -/
theorem do_error_code12 (method : String) (param : JVal)
    (response : List (String × JVal)) (es : List JVal) (s : String)
    (he : dictGet response "error" = some (JVal.arr es))
    (hhead : es.head? = some (JVal.num 12))
    (hlast : es.getLast? = some (JVal.str s)) :
    Camera.do method param response = .error (.invalidAction ("Invalid action: " ++ s)) := by
  simp [Camera.do, he, hhead, hlast, pyEqNum]

/-- Helper: the error branch of `Camera.do` for code 403. -/
theorem do_error_code403 (method : String) (param : JVal)
    (response : List (String × JVal)) (es : List JVal) (msg : JVal)
    (he : dictGet response "error" = some (JVal.arr es))
    (hhead : es.head? = some (JVal.num 403))
    (hlast : es.getLast? = some msg) :
    Camera.do method param response = .error (.forbidden msg) := by
  simp [Camera.do, he, hhead, hlast, pyEqNum]

/-- Helper: the error branch of `Camera.do` for code 500. -/
theorem do_error_code500 (method : String) (param : JVal)
    (response : List (String × JVal)) (es : List JVal) (msg : JVal)
    (he : dictGet response "error" = some (JVal.arr es))
    (hhead : es.head? = some (JVal.num 500))
    (hlast : es.getLast? = some msg) :
    Camera.do method param response = .error (.operationFailed msg) := by
  simp [Camera.do, he, hhead, hlast, pyEqNum]

/-- Helper: the error branch of `Camera.do` for code 40403. -/
theorem do_error_code40403 (method : String) (param : JVal)
    (response : List (String × JVal)) (es : List JVal) (msg : JVal)
    (he : dictGet response "error" = some (JVal.arr es))
    (hhead : es.head? = some (JVal.num 40403))
    (hlast : es.getLast? = some msg) :
    Camera.do method param response = .error (.longShooting msg) := by
  simp [Camera.do, he, hhead, hlast, pyEqNum]

/-- Helper: the error branch of `Camera.do` for every other integer code. -/
theorem do_error_code_other (method : String) (param : JVal)
    (response : List (String × JVal)) (es : List JVal) (code : Int) (msg : JVal)
    (he : dictGet response "error" = some (JVal.arr es))
    (hhead : es.head? = some (JVal.num code))
    (hlast : es.getLast? = some msg)
    (h1 : code ≠ 1) (h3 : code ≠ 3) (h12 : code ≠ 12)
    (h403 : code ≠ 403) (h500 : code ≠ 500) (h40403 : code ≠ 40403) :
    Camera.do method param response =
      .error (.valueError ("Error " ++ toString code ++ ": " ++ pyStr msg)) := by
  simp [Camera.do, he, hhead, hlast, pyEqNum, h1, h3, h12, h403, h500, h40403, pyStr, pyRepr]

/-- C1: on a response whose body binds `"result"` to a sequence (and carries
no `"error"` key), `do` returns `True` for the empty sequence, the single
element unwrapped for a one-element sequence, and the full ordered sequence
otherwise. -/
theorem do_result_normalization (method : String) (param : JVal)
    (response : List (String × JVal)) (xs : List JVal)
    (hne : dictGet response "error" = none)
    (hr : dictGet response "result" = some (JVal.arr xs)) :
    (xs = [] → Camera.do method param response = .ok (.bool true)) ∧
    (∀ x, xs = [x] → Camera.do method param response = .ok x) ∧
    (1 < xs.length → Camera.do method param response = .ok (.arr xs)) := by
  refine ⟨?_, ?_, ?_⟩
  · rintro rfl
    simp [Camera.do, hne, hr]
  · rintro x rfl
    simp [Camera.do, hne, hr]
  · intro hlen
    have h0 : xs.length ≠ 0 := by omega
    have h1 : xs.length ≠ 1 := by omega
    simp [Camera.do, hne, hr, h0, h1]

/-- Witness for C1 at the three concrete responses of the spec's §8. -/
theorem do_result_normalization_witness :
    Camera.do "m" (JVal.arr []) [("result", JVal.arr [])] = .ok (.bool true) ∧
    Camera.do "m" (JVal.arr []) [("result", JVal.arr [.str "ok"])] = .ok (.str "ok") ∧
    Camera.do "m" (JVal.arr []) [("result", JVal.arr [.str "a", .str "b"])]
      = .ok (.arr [.str "a", .str "b"]) := by
  refine ⟨?_, ?_, ?_⟩
  · exact (do_result_normalization "m" (JVal.arr [])
      [("result", JVal.arr [])] [] rfl rfl).1 rfl
  · exact (do_result_normalization "m" (JVal.arr [])
      [("result", JVal.arr [.str "ok"])] [.str "ok"] rfl rfl).2.1 _ rfl
  · exact (do_result_normalization "m" (JVal.arr [])
      [("result", JVal.arr [.str "a", .str "b"])] [.str "a", .str "b"] rfl rfl).2.2
      (by decide)

/-- C2: on a response binding `"error"` to a sequence, `do` raises the
exception kind determined exactly by the first element: 1 → NotAvailable,
3 → IllegalArgument, 12 → InvalidAction, 403 → Forbidden,
500 → OperationFailed, 40403 → LongShooting, and any other code → the
generic `ValueError` carrying both the code and the message (the last
element); the error is neither retried nor suppressed — `do` always
returns it to the caller. -/
theorem do_error_code_mapping (method : String) (param : JVal)
    (response : List (String × JVal)) (es : List JVal) (code : Int) (msg : JVal)
    (he : dictGet response "error" = some (JVal.arr es))
    (hhead : es.head? = some (JVal.num code))
    (hlast : es.getLast? = some msg) :
    (code = 1 → Camera.do method param response = .error (.notAvailable msg)) ∧
    (code = 3 → ∀ s, msg = JVal.str s →
        Camera.do method param response = .error (.illegalArgument (s ++ ": " ++ pyStr param))) ∧
    (code = 12 → ∀ s, msg = JVal.str s →
        Camera.do method param response = .error (.invalidAction ("Invalid action: " ++ s))) ∧
    (code = 403 → Camera.do method param response = .error (.forbidden msg)) ∧
    (code = 500 → Camera.do method param response = .error (.operationFailed msg)) ∧
    (code = 40403 → Camera.do method param response = .error (.longShooting msg)) ∧
    (code ≠ 1 → code ≠ 3 → code ≠ 12 → code ≠ 403 → code ≠ 500 → code ≠ 40403 →
        Camera.do method param response =
          .error (.valueError ("Error " ++ toString code ++ ": " ++ pyStr msg))) := by
  refine ⟨?_, ?_, ?_, ?_, ?_, ?_, ?_⟩
  · rintro rfl
    exact do_error_code1 method param response es msg he hhead hlast
  · rintro rfl s rfl
    exact do_error_code3 method param response es s he hhead hlast
  · rintro rfl s rfl
    exact do_error_code12 method param response es s he hhead hlast
  · rintro rfl
    exact do_error_code403 method param response es msg he hhead hlast
  · rintro rfl
    exact do_error_code500 method param response es msg he hhead hlast
  · rintro rfl
    exact do_error_code40403 method param response es msg he hhead hlast
  · intro h1 h3 h12 h403 h500 h40403
    exact do_error_code_other method param response es code msg he hhead hlast
      h1 h3 h12 h403 h500 h40403

/-- Witness for C2: the spec's `{"error":[12,...]}` example and an unmapped
code. -/
theorem do_error_code_mapping_witness :
    Camera.do "nonexistentMethod" (JVal.arr [])
        [("error", JVal.arr [.num 12, .str "No such method"])]
      = .error (.invalidAction ("Invalid action: " ++ "No such method")) ∧
    Camera.do "m" (JVal.arr []) [("error", JVal.arr [.num 2, .str "any"])]
      = .error (.valueError ("Error " ++ toString (2 : Int) ++ ": " ++ pyStr (JVal.str "any"))) := by
  constructor
  · exact (do_error_code_mapping "nonexistentMethod" (JVal.arr [])
      [("error", JVal.arr [.num 12, .str "No such method"])]
      [.num 12, .str "No such method"] 12 (JVal.str "No such method")
      rfl rfl rfl).2.2.1 rfl "No such method" rfl
  · exact (do_error_code_mapping "m" (JVal.arr [])
      [("error", JVal.arr [.num 2, .str "any"])]
      [.num 2, .str "any"] 2 (JVal.str "any")
      rfl rfl rfl).2.2.2.2.2.2 (by decide) (by decide) (by decide) (by decide)
      (by decide) (by decide)

/-- C5: when the response is an error with code 3, the raised
`IllegalArgumentError`'s message contains both the error message (the last
element of the error sequence) and the serialization of the `param`
argument of the call. -/
theorem do_illegal_argument_message (method : String) (param : JVal)
    (response : List (String × JVal)) (es : List JVal) (s : String)
    (he : dictGet response "error" = some (JVal.arr es))
    (hhead : es.head? = some (JVal.num 3))
    (hlast : es.getLast? = some (JVal.str s)) :
    ∃ m, Camera.do method param response = .error (.illegalArgument m) ∧
      s.data <:+: m.data ∧ (pyStr param).data <:+: m.data := by
  refine ⟨s ++ ": " ++ pyStr param, do_error_code3 method param response es s he hhead hlast,
    ?_, ?_⟩
  · rw [String.data_append, String.data_append, List.append_assoc]
    exact (List.prefix_append s.data _).isInfix
  · rw [String.data_append]
    exact (List.suffix_append _ (pyStr param).data).isInfix

/-- Witness for C5 at the spec's §8 example: `{"error":[3,"bad","value"]}`
with call params `{"iso": 99999}`. -/
theorem do_illegal_argument_message_witness :
    ∃ m, Camera.do "setIsoSpeedRate" (JVal.obj [("iso", JVal.num 99999)])
        [("error", JVal.arr [.num 3, .str "bad", .str "value"])]
      = .error (.illegalArgument m) ∧
      "value".data <:+: m.data ∧ (pyStr (JVal.obj [("iso", JVal.num 99999)])).data <:+: m.data :=
  do_illegal_argument_message "setIsoSpeedRate" (JVal.obj [("iso", JVal.num 99999)])
    [("error", JVal.arr [.num 3, .str "bad", .str "value"])]
    [.num 3, .str "bad", .str "value"] "value" rfl rfl rfl

/-- C10: on a response carrying neither an `"error"` nor a `"result"` key,
`do` falls back to `response.get("result", [])`, treats the absent result as
an empty sequence and returns `True`. -/
theorem do_missing_result_true (method : String) (param : JVal)
    (response : List (String × JVal))
    (he : dictGet response "error" = none)
    (hr : dictGet response "result" = none) :
    Camera.do method param response = .ok (.bool true) := by
  simp [Camera.do, he, hr]

/-- Witness for C10 at a concrete response object with unrelated keys
only. -/
theorem do_missing_result_true_witness :
    Camera.do "m" (JVal.arr []) [("id", JVal.num 1)] = .ok (.bool true) :=
  do_missing_result_true "m" (JVal.arr []) [("id", JVal.num 1)] rfl rfl

/-- C6: `_post_request` wraps a scalar (non-list) param into a one-element
sequence, sends a list param unchanged, and serializes exactly the envelope
`{"method": method, "params": params, "id": 1, "version": "1.0"}` as the
JSON body of the POST. -/
theorem post_request_envelope (method : String) (param : JVal) :
    ((∀ xs, param ≠ JVal.arr xs) →
      post_request_body method param =
        jsonDumps (.obj [("method", .str method), ("params", .arr [param]),
                         ("id", .num 1), ("version", .str "1.0")])) ∧
    (∀ xs, param = JVal.arr xs →
      post_request_body method param =
        jsonDumps (.obj [("method", .str method), ("params", .arr xs),
                         ("id", .num 1), ("version", .str "1.0")])) := by
  constructor
  · intro h
    cases param with
    | arr xs => exact absurd rfl (h xs)
    | null => rfl
    | bool b => rfl
    | num n => rfl
    | str s => rfl
    | obj kvs => rfl
  · rintro xs rfl
    rfl

/-- Witness for C6: a scalar param is wrapped, a list param is kept, and the
serialized bodies are the exact JSON texts. -/
theorem post_request_envelope_witness :
    post_request_body "setIsoSpeedRate" (JVal.str "200") =
      jsonDumps (.obj [("method", .str "setIsoSpeedRate"),
                       ("params", .arr [JVal.str "200"]),
                       ("id", .num 1), ("version", .str "1.0")]) ∧
    post_request_body "getVersions" (JVal.arr [.num 7]) =
      jsonDumps (.obj [("method", .str "getVersions"),
                       ("params", .arr [JVal.num 7]),
                       ("id", .num 1), ("version", .str "1.0")]) ∧
    post_request_body "setIsoSpeedRate" (JVal.str "200") =
      "\x7b\"method\": \"setIsoSpeedRate\", \"params\": [\"200\"], \"id\": 1, \"version\": \"1.0\"\x7d" := by
  refine ⟨(post_request_envelope "setIsoSpeedRate" (JVal.str "200")).1 ?_,
    (post_request_envelope "getVersions" (JVal.arr [.num 7])).2 [.num 7] rfl, ?_⟩
  · rintro xs ⟨⟩
  · rfl

/-- C3 counterexample: the source matches any line *containing*
`"LOCATION"`, not only lines starting with it, so on this datagram the code
returns the second token of the earlier `X-LOCATION` line while the claim's
parse (first line starting with `"LOCATION"`, whitespace-delimited second
token) selects the later line's URL. -/
theorem discover_location_counterexample :
    discover ["nope\nX-LOCATION: http://a\nLOCATION: http://b\n"]
      = .url "http://a" ∧
    specDiscoverParse "nope\nX-LOCATION: http://a\nLOCATION: http://b\n"
      = some "http://b" ∧
    ("http://a" : String) ≠ "http://b" := by
  refine ⟨by rfl, by rfl, by decide⟩

/-- C3 amended: `discover` scans the datagram's lines (split on `"\n"`) for
the first line containing `"LOCATION"` anywhere, strips that line and
returns the element at index 1 of its split on single spaces; only the
first matching line of the first datagram with a match is used, and
datagrams after the match are never examined. -/
theorem discover_location_parse (d : String) (rest rest2 : List String)
    (item t0 t1 : String) (ts : List String)
    (hfind : (pySplitChar '\n' d).find? (fun l => strContainsB l "LOCATION") = some item)
    (hsplit : pySplitChar ' ' (pyStrip item) = t0 :: t1 :: ts) :
    discover (d :: rest) = .url t1 ∧
    discover (d :: rest) = discover (d :: rest2) := by
  constructor
  · simp [discover, hfind, hsplit]
  · simp [discover, hfind, hsplit]

/-- Witness for C3's amended claim at a realistic SSDP response. -/
theorem discover_location_parse_witness :
    discover ["HTTP/1.1 200 OK\r\nLOCATION: http://192.168.122.1:64321/dd.xml\r\n\r\n"]
      = .url "http://192.168.122.1:64321/dd.xml" ∧
    discover ["HTTP/1.1 200 OK\r\nLOCATION: http://192.168.122.1:64321/dd.xml\r\n\r\n"]
      = discover ["HTTP/1.1 200 OK\r\nLOCATION: http://192.168.122.1:64321/dd.xml\r\n\r\n",
                  "anything else"] :=
  discover_location_parse "HTTP/1.1 200 OK\r\nLOCATION: http://192.168.122.1:64321/dd.xml\r\n\r\n"
    [] ["anything else"] "LOCATION: http://192.168.122.1:64321/dd.xml\r"
    "LOCATION:" "http://192.168.122.1:64321/dd.xml" [] (by rfl) (by rfl)

/-- C4: when no SSDP datagram arrives before the 2-second receive timeout —
modelled as the received-datagram sequence ending without any datagram whose
lines match — `discover` raises
`ConnectionError("You are not connected to the camera\x27s wifi.")`; it
neither returns a URL nor retries. -/
theorem discover_timeout_error (datagrams : List String)
    (h : ∀ d ∈ datagrams,
      (pySplitChar '\n' d).find? (fun l => strContainsB l "LOCATION") = none) :
    discover datagrams = .connectionError "You are not connected to the camera\x27s wifi." := by
  induction datagrams with
  | nil => rfl
  | cons d rest ih =>
    have hd := h d (by simp)
    have hrest : ∀ x ∈ rest,
        (pySplitChar '\n' x).find? (fun l => strContainsB l "LOCATION") = none :=
      fun x hx => h x (by simp [hx])
    simp [discover, hd, ih hrest]

/-- Witness for C4: no datagram at all before the timeout. -/
theorem discover_timeout_error_witness :
    discover [] = .connectionError "You are not connected to the camera\x27s wifi." :=
  discover_timeout_error [] (by simp)

/-- C8 counterexample: the `connected` property only catches
`requests.exceptions.ConnectionError`; at the concrete outcome where the
0.2-second GET raises any other exception (e.g. a `ReadTimeout` from a
connected but slow endpoint) the property does not return a boolean at all
— the exception propagates — contradicting "never raises" and "every other
outcome yields true". -/
theorem connected_counterexample :
    connected GetOutcome.otherException = .error () ∧
    ∀ b : Bool, connected GetOutcome.otherException ≠ .ok b :=
  ⟨rfl, fun _ h => Except.noConfusion h⟩

/-- C8 amended: `connected` returns `True` when the 0.2-second GET
completes (with any HTTP status), returns `False` when it raises
`requests.exceptions.ConnectionError` (connection refused/unreachable),
and lets every other exception propagate to the caller. -/
theorem connected_outcomes :
    connected GetOutcome.success = .ok true ∧
    connected GetOutcome.connectionError = .ok false ∧
    connected GetOutcome.otherException = .error () :=
  ⟨rfl, rfl, rfl⟩

/-- C7: every successfully constructed camera has
`camera_endpoint_url = services["camera"] + "/camera"`, and construction
fails (no object) whenever the `"camera"` service type is absent from the
services mapping the descriptor yielded. -/
theorem camera_endpoint_invariant (env : InitEnv) :
    (∀ c : Camera, Camera.init env = .ok c →
        ∃ u, c.services.lookup "camera" = some u ∧ c.camera_endpoint_url = u ++ "/camera") ∧
    (∀ name ver services, env.fetch = .ok (name, ver, services) →
        services.lookup "camera" = none → ∃ e, Camera.init env = .error e) := by
  constructor
  · intro c h
    unfold Camera.init at h
    split at h
    · cases h
    · cases h
    · split at h
      · cases h
      · rename_i name api_version services hfetch
        split at h
        · cases h
        · rename_i u hu
          split at h
          · cases h
          · split at h
            · cases h
            · split at h
              · cases h
              · cases h
                exact ⟨u, hu, rfl⟩
            · cases h
              exact ⟨u, hu, rfl⟩
  · intro name ver services hfetch hnone
    unfold Camera.init
    split
    · exact ⟨_, rfl⟩
    · exact ⟨_, rfl⟩
    · rw [hfetch]
      refine ⟨InitError.keyError, ?_⟩
      simp [hnone]

/-- Witness for C7: a construction that succeeds satisfies the endpoint
invariant, and one whose descriptor lacks the `"camera"` service fails. -/
theorem camera_endpoint_invariant_witness :
    (∃ u, (Camera.mk "http://cam/dd.xml" "Cam1" "2.0" [("camera", "http://cam")]
        "http://cam/camera" (JVal.arr [.str "getVersions"])).services.lookup "camera" = some u ∧
      (Camera.mk "http://cam/dd.xml" "Cam1" "2.0" [("camera", "http://cam")]
        "http://cam/camera" (JVal.arr [.str "getVersions"])).camera_endpoint_url
        = u ++ "/camera") ∧
    (∃ e, Camera.init
        (InitEnv.mk ["LOCATION: http://cam/dd.xml"]
          (.ok ("Cam1", "2.0", [("guide", "http://cam")])) [] [])
      = .error e) := by
  constructor
  · exact (camera_endpoint_invariant
      (InitEnv.mk ["LOCATION: http://cam/dd.xml"]
        (.ok ("Cam1", "2.0", [("camera", "http://cam")]))
        [("result", JVal.arr [.arr [.str "getVersions"]])] [])).1
      (Camera.mk "http://cam/dd.xml" "Cam1" "2.0" [("camera", "http://cam")]
        "http://cam/camera" (JVal.arr [.str "getVersions"])) rfl
  · exact (camera_endpoint_invariant
      (InitEnv.mk ["LOCATION: http://cam/dd.xml"]
        (.ok ("Cam1", "2.0", [("guide", "http://cam")])) [] [])).2
      "Cam1" "2.0" [("guide", "http://cam")] rfl rfl

/-- C9: `__init__` runs discovery, descriptor fetch, endpoint derivation,
a `getAvailableApiList` call cached in `available_apis`, and then a
`startRecMode` call exactly when `"startRecMode"` is in that cached list;
a failed discovery or fetch aborts construction, a failed `startRecMode`
call aborts construction, and when `"startRecMode"` is absent the
`startRecMode` response is never even examined. -/
theorem camera_init_sequence (env : InitEnv) :
    (∀ m, discover env.datagrams = .connectionError m →
        Camera.init env = .error (.connectionError m)) ∧
    (∀ u, discover env.datagrams = .url u → env.fetch = .error () →
        Camera.init env = .error .fetchError) ∧
    (∀ c : Camera, Camera.init env = .ok c →
        Camera.do "getAvailableApiList" (.arr []) env.apiListResponse = .ok c.available_apis) ∧
    (∀ c : Camera, Camera.init env = .ok c →
        pyInStr "startRecMode" c.available_apis = .ok true →
        ∃ v, Camera.do "startRecMode" (.arr []) env.startRecResponse = .ok v) ∧
    (∀ apis e, Camera.do "getAvailableApiList" (.arr []) env.apiListResponse = .ok apis →
        pyInStr "startRecMode" apis = .ok true →
        Camera.do "startRecMode" (.arr []) env.startRecResponse = .error e →
        ∀ c : Camera, Camera.init env ≠ .ok c) ∧
    (∀ apis, Camera.do "getAvailableApiList" (.arr []) env.apiListResponse = .ok apis →
        pyInStr "startRecMode" apis = .ok false →
        ∀ r, Camera.init { env with startRecResponse := r } = Camera.init env) := by
  refine ⟨?_, ?_, ?_, ?_, ?_, ?_⟩
  · intro m hm
    unfold Camera.init
    rw [hm]
  · intro u hu hf
    unfold Camera.init
    rw [hu, hf]
  · intro c h
    unfold Camera.init at h
    split at h
    · cases h
    · cases h
    · split at h
      · cases h
      · split at h
        · cases h
        · split at h
          · cases h
          · rename_i havail
            split at h
            · cases h
            · split at h
              · cases h
              · cases h
                exact havail
            · cases h
              exact havail
  · intro c h hin
    unfold Camera.init at h
    split at h
    · cases h
    · cases h
    · split at h
      · cases h
      · split at h
        · cases h
        · split at h
          · cases h
          · split at h
            · cases h
            · rename_i hrec
              split at h
              · cases h
              · cases h
                rename_i v hv
                exact ⟨v, hv⟩
            · rename_i hfalse
              cases h
              rw [hin] at hfalse
              cases hfalse
  · intro apis e h1 h2 h3 c h
    unfold Camera.init at h
    split at h
    · cases h
    · cases h
    · split at h
      · cases h
      · split at h
        · cases h
        · split at h
          · cases h
          · rename_i havail
            rw [h1] at havail
            cases havail
            split at h
            · cases h
            · simp only [h3] at h
              cases h
            · rename_i hfalse
              rw [h2] at hfalse
              cases hfalse
  · intro apis h1 h2 r
    obtain ⟨ds, f, alr, srr⟩ := env
    dsimp only at h1 ⊢
    unfold Camera.init
    dsimp only
    cases hd : discover ds with
    | connectionError m => rfl
    | indexError => rfl
    | url u =>
      cases f with
      | error e => rfl
      | ok triple =>
        obtain ⟨name, ver, services⟩ := triple
        dsimp only
        cases hl : services.lookup "camera" with
        | none => rfl
        | some uu =>
          simp [h1, h2]

/-- Witness for C9: a timed-out discovery aborts, a failed fetch aborts,
a successful construction caches the `getAvailableApiList` result, a
construction with `"startRecMode"` available performed the `startRecMode`
call, and without it the `startRecMode` response is irrelevant. -/
theorem camera_init_sequence_witness :
    Camera.init (InitEnv.mk [] (.ok ("Cam1", "2.0", [("camera", "http://cam")])) [] [])
      = .error (.connectionError "You are not connected to the camera\x27s wifi.") ∧
    Camera.init (InitEnv.mk ["LOCATION: http://cam/dd.xml"] (.error ()) [] [])
      = .error .fetchError ∧
    Camera.do "getAvailableApiList" (.arr [])
        [("result", JVal.arr [.arr [.str "getVersions"]])]
      = .ok (Camera.mk "http://cam/dd.xml" "Cam1" "2.0" [("camera", "http://cam")]
          "http://cam/camera" (JVal.arr [.str "getVersions"])).available_apis ∧
    (∃ v, Camera.do "startRecMode" (.arr []) [("result", JVal.arr [])] = .ok v) ∧
    Camera.init (InitEnv.mk ["LOCATION: http://cam/dd.xml"]
        (.ok ("Cam1", "2.0", [("camera", "http://cam")]))
        [("result", JVal.arr [.arr [.str "getVersions"]])] [("unused", JVal.null)])
      = Camera.init (InitEnv.mk ["LOCATION: http://cam/dd.xml"]
          (.ok ("Cam1", "2.0", [("camera", "http://cam")]))
          [("result", JVal.arr [.arr [.str "getVersions"]])] []) := by
  refine ⟨?_, ?_, ?_, ?_, ?_⟩
  · exact (camera_init_sequence
      (InitEnv.mk [] (.ok ("Cam1", "2.0", [("camera", "http://cam")])) [] [])).1
      "You are not connected to the camera\x27s wifi." rfl
  · exact (camera_init_sequence
      (InitEnv.mk ["LOCATION: http://cam/dd.xml"] (.error ()) [] [])).2.1
      "http://cam/dd.xml" rfl rfl
  · exact (camera_init_sequence
      (InitEnv.mk ["LOCATION: http://cam/dd.xml"]
        (.ok ("Cam1", "2.0", [("camera", "http://cam")]))
        [("result", JVal.arr [.arr [.str "getVersions"]])] [])).2.2.1
      (Camera.mk "http://cam/dd.xml" "Cam1" "2.0" [("camera", "http://cam")]
        "http://cam/camera" (JVal.arr [.str "getVersions"])) rfl
  · exact (camera_init_sequence
      (InitEnv.mk ["LOCATION: http://cam/dd.xml"]
        (.ok ("Cam1", "2.0", [("camera", "http://cam")]))
        [("result", JVal.arr [.arr [.str "startRecMode"]])]
        [("result", JVal.arr [])])).2.2.2.1
      (Camera.mk "http://cam/dd.xml" "Cam1" "2.0" [("camera", "http://cam")]
        "http://cam/camera" (JVal.arr [.str "startRecMode"])) rfl rfl
  · exact (camera_init_sequence
      (InitEnv.mk ["LOCATION: http://cam/dd.xml"]
        (.ok ("Cam1", "2.0", [("camera", "http://cam")]))
        [("result", JVal.arr [.arr [.str "getVersions"]])] [])).2.2.2.2.2
      (JVal.arr [.str "getVersions"]) rfl rfl [("unused", JVal.null)]
